import Mathlib

/-!
Shallow embedding of the document-analysis utility: the web front end
(`app.py`) and the console script (`analyze_docs.py`).

The embedding covers prompt assembly, the external analysis call and its
error handling, PDF text concatenation, batch file reading, checklist
filename derivation, cost estimation, and API-key resolution.  Python
strings are modelled as Lean `String` (lists of characters); Python
dictionaries that preserve insertion order are modelled as association
lists; code that may raise is modelled with `Except`/`Option`; the
external generation service is a parameter of type
`String → Except String (String × UsageMetadata)`.
-/

set_option maxRecDepth 10000

/-- The `role_instruction` string built in `analyze_documents` (`app.py`
lines 155-157): a fixed assistant preamble, extended with the checklist
goal when `is_checklist` is set. -/
def role_instruction (is_checklist : Bool) : String :=
  if is_checklist then
    "You are a helpful assistant that analyzes documents." ++
      " Your goal is to complete the provided checklist based on the documents. Ensure you fill in the \u0027Company name\u0027 field if present."
  else
    "You are a helpful assistant that analyzes documents."

/-- The block appended to `combined_docs` for one `(filename, content)`
pair in `analyze_documents` (`app.py` line 153). -/
def docBlock (fc : String × String) : String :=
  "\n--- Document (" ++ fc.1 ++ ") ---\n" ++ fc.2 ++ "\n"

/-- The `combined_docs` accumulation loop of `analyze_documents`
(`app.py` lines 151-153); the insertion-ordered dict is modelled as an
association list iterated in order. -/
def combined_docs (docs_contents : List (String × String)) : String :=
  docs_contents.foldl (fun acc fc => acc ++ docBlock fc) ""

/-- The f-string prompt assembled in `analyze_documents` (`app.py`
lines 159-169), including the triple-quoted literal leading newline and
four-space indentation. -/
def analyze_documents_prompt (instruction_content : String)
    (docs_contents : List (String × String)) (is_checklist : Bool) : String :=
  "\n    " ++ role_instruction is_checklist ++
    "\n\n    Here is the template/checklist you must follow for the output:\n    " ++
    instruction_content ++
    "\n\n    Here are the documents to analyze:\n    " ++
    combined_docs docs_contents ++
    "\n\n    Please analyze the documents and produce an output that strictly follows the format and structure of the provided template/checklist.\n    "

/-- Token-usage counters returned by the generation service
(`response.usage_metadata` fields read in `display_cost_stats`). -/
structure UsageMetadata where
  prompt_token_count : Nat
  candidates_token_count : Nat
  total_token_count : Nat
deriving DecidableEq

/-- The whole of `analyze_documents` (`app.py` lines 146-176): assemble
the prompt, submit it, and on success return the text and usage; any
exception raised by the service call (modelled by `generate` returning
`Except.error`) is caught and turned into an error string with usage
`None`.  `genai.configure(api_key)` is a side effect on the client
library with no bearing on the returned value, so `api_key` is an unused
parameter here. -/
def analyze_documents_call
    (generate : String → Except String (String × UsageMetadata))
    (api_key : String) (instruction_content : String)
    (docs_contents : List (String × String)) (is_checklist : Bool) :
    String × Option UsageMetadata :=
  match generate (analyze_documents_prompt instruction_content docs_contents is_checklist) with
  | Except.ok r => (r.1, some r.2)
  | Except.error e => ("Error during analysis: " ++ e, none)

/-- `display_cost_stats` (`app.py` lines 229-243), modelled as the cost
estimate it derives: `None` usage produces no estimate at all (the
function returns before computing anything); otherwise
`prompt/1_000_000 * 0.3 + candidates/1_000_000 * 2.5`.  The Python float
literals `0.3` and `2.5` denote the decimal values `3/10` and `5/2`,
modelled exactly in `ℚ`. -/
def display_cost_stats (usage_metadata : Option UsageMetadata) : Option ℚ :=
  match usage_metadata with
  | none => none
  | some u =>
    some ((u.prompt_token_count : ℚ) / 1000000 * (3 / 10) +
      (u.candidates_token_count : ℚ) / 1000000 * (5 / 2))

/-- The PDF branch of `read_file_content` (`app.py` lines 133-138):
`text = ""` then `for page in pages: text += page.extract_text() + "\n"`.
Each page is modelled by the string `extract_text` returns (possibly
empty for pages with no extractable text). -/
def read_pdf_content (pages : List String) : String :=
  pages.foldl (fun text page_text => text ++ page_text ++ "\n") ""

/-- Modelled from the spec words, for comparison with the source: "the
extracted text is the page texts in page order concatenated with a
newline between pages" — i.e. the pages joined by single newline
separators, with nothing after the last page. -/
def pdf_text_spec : List String → String
  | [] => ""
  | [p] => p
  | p :: ps => p ++ "\n" ++ pdf_text_spec ps

/-- The possible contents of an uploaded file as seen by
`read_file_content` (`app.py`): a PDF (its per-page extracted texts), a
text-based file (its UTF-8 decode result), or a file whose processing
raises some other exception (e.g. `pypdf` failing on a corrupt stream). -/
inductive UploadedData where
  | pdfFile (pages : List String)
  | textFile (decoded : Except String String)
  | unreadable (exc_message : String)

/-- An uploaded file: its name and its data. -/
structure UploadedFile where
  name : String
  data : UploadedData

/-- The outcome of the `try` body of `read_file_content` (`app.py`
lines 132-141): the extracted text, or the raised exception message. -/
def extract_outcome (d : UploadedData) : Except String String :=
  match d with
  | UploadedData.pdfFile pages => Except.ok (read_pdf_content pages)
  | UploadedData.textFile r => r
  | UploadedData.unreadable e => Except.error e

/-- `read_file_content` (`app.py` lines 130-144): on an exception it
shows `st.error(f"Error reading {name}: {e}")` and returns `None`.  The
returned pair is (content, emitted warning banners). -/
def read_file_content (f : UploadedFile) : Option String × List String :=
  match extract_outcome f.data with
  | Except.ok t => (some t, [])
  | Except.error e => (none, ["Error reading " ++ f.name ++ ": " ++ e])

/-- Insertion-ordered dictionary assignment `m[k] = v` on an association
list: an existing key keeps its original position and gets the new
value; a new key is appended. -/
def dictInsert (m : List (String × String)) (k v : String) :
    List (String × String) :=
  if m.any (fun p => p.1 == k) then
    m.map (fun p => if p.1 = k then (k, v) else p)
  else
    m ++ [(k, v)]

/-- The batch-reading loop over `doc_files` (`app.py` lines 282-286):
`content = read_file_content(doc); if content: docs_contents[doc.name] = content`.
The Python `if content:` check keeps only non-`None`, non-empty text.  Returns
the mapping and the warning banners emitted along the way. -/
def docs_contents_loop (m : List (String × String)) (w : List String) :
    List UploadedFile → List (String × String) × List String
  | [] => (m, w)
  | f :: fs =>
    match read_file_content f with
    | (some content, warns) =>
      if content ≠ "" then
        docs_contents_loop (dictInsert m f.name content) (w ++ warns) fs
      else
        docs_contents_loop m (w ++ warns) fs
    | (none, warns) => docs_contents_loop m (w ++ warns) fs

/-- The `docs_contents` mapping and warnings produced from the uploaded
`doc_files` (`app.py` lines 282-286). -/
def docs_contents (doc_files : List UploadedFile) :
    List (String × String) × List String :=
  docs_contents_loop [] [] doc_files

/-- A concrete batch: three documents, the middle one unreadable. -/
def c6SampleDocs : List UploadedFile :=
  [⟨"d1.txt", UploadedData.textFile (Except.ok "A")⟩,
   ⟨"d2.bin", UploadedData.unreadable "bad file"⟩,
   ⟨"d3.txt", UploadedData.textFile (Except.ok "B")⟩]

/-- Where a run of the console script `analyze_docs.py` ends up, after
the API key is found: each early `return` branch, or the submission of
the assembled prompt to the service. -/
inductive RunOutcome where
  | templateNotFound (p : String)
  | emptyInput
  | emptyOutputPath
  | templateReadError (e : String)
  | docReadError (p e : String)
  | serviceResult (prompt_text : String)
deriving DecidableEq

/-- The f-string prompt of the console script (`analyze_docs.py`
lines 65-75), with the literal leading newline and indentation. -/
def console_prompt (template_content docs_content : String) : String :=
  "\n    You are a helpful assistant that analyzes documents based on a specific template.\n\n    Here is the template you must follow for the output:\n    " ++
    template_content ++
    "\n\n    Here are the documents to analyze:\n    " ++
    docs_content ++
    "\n\n    Please analyze the documents and produce an output that strictly follows the format and structure of the provided template.\n    "

/-- The document-reading loop of the console script (`analyze_docs.py`
lines 53-62): `for idx, p in enumerate(valid_docs)` accumulates
`"\n--- Document {idx+1} ({p}) ---\n" + contents + "\n"`; the first
read that raises prints an error and returns from the whole function,
modelled as `Except.error (path, message)`. -/
def console_docs_content (readF : String → Except String String) :
    Nat → List String → Except (String × String) String
  | _, [] => Except.ok ""
  | idx, p :: ps =>
    match readF p with
    | Except.ok t =>
      match console_docs_content readF (idx + 1) ps with
      | Except.ok rest =>
        Except.ok ("\n--- Document " ++ toString (idx + 1) ++ " (" ++ p ++
          ") ---\n" ++ t ++ "\n" ++ rest)
      | Except.error pe => Except.error pe
    | Except.error e => Except.error (p, e)

/-- The warnings printed for missing documents (`analyze_docs.py`
lines 30-34): one warning line naming the path per
non-existing path, in input order. -/
def console_warnings (ex : String → Bool) (doc_paths : List String) :
    List String :=
  (doc_paths.filter (fun p => !(ex p))).map
    (fun p => "Warning: Document \u0027" ++ p ++ "\u0027 not found. Skipping.")

/-- The console run of `analyze_documents` (`analyze_docs.py`
lines 21-81) from the template-path prompt onward, parameterised by the
file system: `ex` is `os.path.exists` and `readF` is the outcome of
`open(p).read()` (UTF-8 decode errors and any other per-file exception
appear as `Except.error`).  The pair is (outcome, printed warnings). -/
def console_run (ex : String → Bool) (readF : String → Except String String)
    (template_path : String) (doc_paths : List String) (output_path : String) :
    RunOutcome × List String :=
  if ex template_path then
    if doc_paths.filter (fun p => ex p) = [] then
      (RunOutcome.emptyInput, console_warnings ex doc_paths)
    else if output_path = "" then
      (RunOutcome.emptyOutputPath, console_warnings ex doc_paths)
    else
      match readF template_path with
      | Except.error e => (RunOutcome.templateReadError e, console_warnings ex doc_paths)
      | Except.ok template_content =>
        match console_docs_content readF 0 (doc_paths.filter (fun p => ex p)) with
        | Except.error pe =>
          (RunOutcome.docReadError pe.1 pe.2, console_warnings ex doc_paths)
        | Except.ok docs_content =>
          (RunOutcome.serviceResult (console_prompt template_content docs_content),
            console_warnings ex doc_paths)
  else (RunOutcome.templateNotFound template_path, [])

/-- `system_api_key` resolution (`app.py` lines 194-197): the secrets
store entry when the key is present there, otherwise the environment
variable (`none` when unset). -/
def system_api_key (secrets env : Option String) : Option String :=
  match secrets with
  | some v => some v
  | none => env

/-- The `api_key` chain (`app.py` lines 215-220): Python truthiness
means an empty user string and an empty or missing system key are both
falsy. -/
def resolved_api_key (user_api_key : String) (sys : Option String) :
    Option String :=
  if user_api_key ≠ "" then some user_api_key
  else
    match sys with
    | some s => if s ≠ "" then some s else none
    | none => none

/-- The guard chain of the analyze button (`app.py` lines 271-279):
whether the flow reaches the analysis calls.  `if not api_key:` shows an
error and stops; then at least one template/checklist and at least one
document are required. -/
def analysis_attempted (api_key : Option String)
    (has_template has_checklist has_docs : Bool) : Bool :=
  match api_key with
  | none => false
  | some k =>
    if k = "" then false
    else if !has_template && !has_checklist then false
    else if !has_docs then false
    else true

/-- Python `\s` for ASCII text: space, tab, newline, carriage return,
vertical tab, form feed. -/
def isSpaceChar (c : Char) : Bool :=
  c == ' ' || c == '\t' || c == '\n' || c == '\r' ||
    c == Char.ofNat 11 || c == Char.ofNat 12

/-- Python `str.strip(chars)`: drop the given characters from both
ends. -/
def pyStrip (p : Char → Bool) (l : List Char) : List Char :=
  ((l.dropWhile p).reverse.dropWhile p).reverse

/-- The literal part of the pattern `Company name:\s*(.+)`, lowered for
the `re.IGNORECASE` comparison. -/
def companyLabel : List Char := "company name:".data

/-- The `\s*(.+)` tail of the regex at a fixed position: `\s*` first
takes the maximal whitespace run of length `k`, then backtracks until
`.+` can match a character other than a newline; the greedy `.+` then
captures up to the end of that line. -/
def backtrack (rest : List Char) : Nat → Option (List Char)
  | 0 =>
    match rest with
    | [] => none
    | c :: _ =>
      if c = '\n' then none
      else some (rest.takeWhile (fun a => a ≠ '\n'))
  | k + 1 =>
    match rest.drop (k + 1) with
    | [] => backtrack rest k
    | c :: _ =>
      if c = '\n' then backtrack rest k
      else some ((rest.drop (k + 1)).takeWhile (fun a => a ≠ '\n'))

/-- `re.search(r"Company name:\s*(.+)", text, re.IGNORECASE)`: try each
start position from the left; at a position where the lowered text
starts with the label, match the `\s*(.+)` tail; if the tail cannot
match, keep scanning to the right. -/
def regexSearch : List Char → Option (List Char)
  | [] => none
  | c :: cs =>
    if companyLabel.isPrefixOf ((c :: cs).map Char.toLower) then
      let rest := (c :: cs).drop companyLabel.length
      match backtrack rest (rest.takeWhile isSpaceChar).length with
      | some g => some g
      | none => regexSearch cs
    else
      regexSearch cs

/-- `extract_company_name` (`app.py` lines 178-185): the matched group
is stripped of surrounding whitespace, then of surrounding square
brackets; with no match the fixed default `"Company"` is returned. -/
def extract_company_name (text : String) : String :=
  match regexSearch text.data with
  | some g =>
    String.mk (pyStrip (fun c => c == '[' || c == ']') (pyStrip isSpaceChar g))
  | none => "Company"

/-- `safe_company_name` (`app.py` lines 325-326): keep only
alphanumerics, spaces, hyphens and underscores; strip; replace spaces by
underscores (a single-character `str.replace`, i.e. a character map). -/
def safe_company_name (company_name : String) : String :=
  String.mk ((pyStrip isSpaceChar (company_name.data.filter
      (fun c => c.isAlphanum || c == ' ' || c == '-' || c == '_'))).map
    (fun c => if c = ' ' then '_' else c))

/-- The checklist download filename (`app.py` line 327):
`f"checklist_{safe_company_name}.txt"`. -/
def checklist_filename (checklist_result : String) : String :=
  "checklist_" ++ safe_company_name (extract_company_name checklist_result) ++ ".txt"

/-- All start positions at which `needle` occurs in `haystack`. -/
def subIndices (needle haystack : List Char) : List Nat :=
  (List.range (haystack.length + 1)).filter
    (fun i => needle.isPrefixOf (haystack.drop i))

/-- Number of occurrences of `needle` in `haystack`. -/
def countSub (needle haystack : List Char) : Nat :=
  (subIndices needle haystack).length

/-- Every occurrence of `n1` starts strictly before every occurrence of
`n2`. -/
def allIndicesBefore (n1 n2 haystack : List Char) : Bool :=
  (subIndices n1 haystack).all
    (fun i => (subIndices n2 haystack).all (fun j => i < j))

/-- Folding the document-block loop from any accumulator prepends the
accumulator to the result of folding from the empty string. -/
theorem combined_docs_foldl (l : List (String × String)) (acc : String) :
    l.foldl (fun a fc => a ++ docBlock fc) acc = acc ++ combined_docs l := by
  induction l generalizing acc with
  | nil =>
    simp only [combined_docs, List.foldl_nil]
    rw [String.append_empty]
  | cons x xs ih =>
    simp only [combined_docs, List.foldl_cons]
    rw [ih (acc ++ docBlock x), ih ("" ++ docBlock x), String.empty_append,
      String.append_assoc]

/-- The block list grows one block at a time, head first. -/
theorem combined_docs_cons (fc : String × String) (l : List (String × String)) :
    combined_docs (fc :: l) = docBlock fc ++ combined_docs l := by
  simp only [combined_docs, List.foldl_cons]
  rw [combined_docs_foldl l ("" ++ docBlock fc), String.empty_append]
  rfl

/-- Concatenating two document lists concatenates their block strings. -/
theorem combined_docs_append (l1 l2 : List (String × String)) :
    combined_docs (l1 ++ l2) = combined_docs l1 ++ combined_docs l2 := by
  induction l1 with
  | nil =>
    rw [List.nil_append, show combined_docs [] = "" from rfl, String.empty_append]
  | cons x xs ih =>
    rw [List.cons_append, combined_docs_cons, combined_docs_cons, ih,
      String.append_assoc]

/-- Folding the PDF page loop from any accumulator prepends the
accumulator. -/
theorem read_pdf_foldl (pages : List String) (acc : String) :
    pages.foldl (fun text page_text => text ++ page_text ++ "\n") acc =
      acc ++ read_pdf_content pages := by
  induction pages generalizing acc with
  | nil =>
    simp only [read_pdf_content, List.foldl_nil]
    rw [String.append_empty]
  | cons p ps ih =>
    simp only [read_pdf_content, List.foldl_cons]
    rw [ih (acc ++ p ++ "\n"), ih ("" ++ p ++ "\n"), String.empty_append]
    simp only [String.append_assoc]

/-- One PDF page contributes its text and a trailing newline. -/
theorem read_pdf_cons (p : String) (ps : List String) :
    read_pdf_content (p :: ps) = p ++ "\n" ++ read_pdf_content ps := by
  simp only [read_pdf_content, List.foldl_cons]
  rw [read_pdf_foldl ps ("" ++ p ++ "\n"), String.empty_append]
  rfl

/-- Stripping characters from both ends never adds characters. -/
theorem pyStrip_subset (p : Char → Bool) (l : List Char) :
    ∀ c ∈ pyStrip p l, c ∈ l := by
  intro c hc
  unfold pyStrip at hc
  rw [List.mem_reverse] at hc
  have h1 : c ∈ (l.dropWhile p).reverse := (List.dropWhile_sublist _).subset hc
  rw [List.mem_reverse] at h1
  exact (List.dropWhile_sublist _).subset h1

/-- C1 (counterexample): the claim says each document block is introduced
by a delimiter line carrying the 1-based position of the document, but in the
web variant the delimiter carries only the filename: for instruction "T"
and the mapping inserted as a.txt ↦ "X", the assembled prompt contains no
digit at all, and in particular the string "1" never occurs in it, so no
line of it can carry the 1-based position of the only document. -/
theorem c1_counterexample :
    (analyze_documents_prompt "T" [("a.txt", "X")] false).data.all
        (fun c => !c.isDigit) = true ∧
    countSub "1".data (analyze_documents_prompt "T" [("a.txt", "X")] false).data = 0 := by
  decide

/-- C1 (amended): the assembled prompt embeds the instruction text and
the text of every document exactly once; in the web variant the block
of each document is introduced by a delimiter line carrying only the
filename/identity of the document (no numeric position), while the
delimiter of the console variant carries the 1-based position and the
path; blocks appear in insertion order of the mapping, so for a mapping
inserted as
a.txt ↦ "Q" then b.txt ↦ "Z" the a.txt block occurs strictly before the
b.txt block.  The first two conjuncts give the general block structure
of `combined_docs`; the next four check the instruction text, the two
whole blocks, and their relative order occur exactly as claimed in the
concrete prompt; the last two check the numbered console-variant
delimiters. -/
theorem c1_amended_prompt_structure :
    (∀ (fc : String × String) (docs : List (String × String)),
      combined_docs (fc :: docs) = docBlock fc ++ combined_docs docs) ∧
    (∀ l1 l2 : List (String × String),
      combined_docs (l1 ++ l2) = combined_docs l1 ++ combined_docs l2) ∧
    countSub "T".data
      (analyze_documents_prompt "T" [("a.txt", "Q"), ("b.txt", "Z")] false).data = 1 ∧
    countSub (docBlock ("a.txt", "Q")).data
      (analyze_documents_prompt "T" [("a.txt", "Q"), ("b.txt", "Z")] false).data = 1 ∧
    countSub (docBlock ("b.txt", "Z")).data
      (analyze_documents_prompt "T" [("a.txt", "Q"), ("b.txt", "Z")] false).data = 1 ∧
    allIndicesBefore (docBlock ("a.txt", "Q")).data (docBlock ("b.txt", "Z")).data
      (analyze_documents_prompt "T" [("a.txt", "Q"), ("b.txt", "Z")] false).data = true ∧
    countSub "--- Document 1 (a.txt) ---".data
      (((console_docs_content
          (fun p => if p = "a.txt" then Except.ok "X" else Except.ok "Y")
          0 ["a.txt", "b.txt"]).toOption.getD "").data) = 1 ∧
    countSub "--- Document 2 (b.txt) ---".data
      (((console_docs_content
          (fun p => if p = "a.txt" then Except.ok "X" else Except.ok "Y")
          0 ["a.txt", "b.txt"]).toOption.getD "").data) = 1 :=
  ⟨combined_docs_cons, combined_docs_append, by decide, by decide, by decide,
    by decide, by decide, by decide⟩

/-- C2: when the external generation call fails (the service raises,
modelled by `generate` returning `Except.error`), `analyze_documents`
returns a pair whose text is the non-empty descriptive error string and
whose usage component is `None`; no fault propagates. -/
theorem c2_service_failure_handled
    (generate : String → Except String (String × UsageMetadata))
    (api_key instr : String) (docs : List (String × String)) (flag : Bool)
    (e : String)
    (h : generate (analyze_documents_prompt instr docs flag) = Except.error e) :
    (analyze_documents_call generate api_key instr docs flag).1 =
        "Error during analysis: " ++ e ∧
    (analyze_documents_call generate api_key instr docs flag).1 ≠ "" ∧
    (analyze_documents_call generate api_key instr docs flag).2 = none := by
  have hc : analyze_documents_call generate api_key instr docs flag =
      ("Error during analysis: " ++ e, none) := by
    unfold analyze_documents_call
    rw [h]
  refine ⟨by rw [hc], ?_, by rw [hc]⟩
  rw [hc]
  intro hempty
  have hlen := congrArg String.length hempty
  rw [String.length_append] at hlen
  rw [show ("Error during analysis: " : String).length = 23 from rfl] at hlen
  rw [show ("" : String).length = 0 from rfl] at hlen
  omega

/-- C2 (witness): a concrete failing service call. -/
theorem c2_service_failure_handled_witness :
    ((fun _ => (Except.error "quota exceeded" : Except String (String × UsageMetadata)))
        (analyze_documents_prompt "T" [("a.txt", "X")] false) =
      Except.error "quota exceeded") ∧
    ((analyze_documents_call (fun _ => Except.error "quota exceeded") "key" "T"
        [("a.txt", "X")] false).1 = "Error during analysis: quota exceeded" ∧
      (analyze_documents_call (fun _ => Except.error "quota exceeded") "key" "T"
        [("a.txt", "X")] false).1 ≠ "" ∧
      (analyze_documents_call (fun _ => Except.error "quota exceeded") "key" "T"
        [("a.txt", "X")] false).2 = none) :=
  ⟨rfl, c2_service_failure_handled (fun _ => Except.error "quota exceeded") "key" "T"
    [("a.txt", "X")] false "quota exceeded" rfl⟩

/-- C3: prompt assembly is a pure deterministic function of the
instruction text, the insertion-ordered document mapping and the role
flag: equal inputs give byte-identical prompts. -/
theorem c3_prompt_deterministic (i₁ i₂ : String)
    (d₁ d₂ : List (String × String)) (f₁ f₂ : Bool)
    (hi : i₁ = i₂) (hd : d₁ = d₂) (hf : f₁ = f₂) :
    analyze_documents_prompt i₁ d₁ f₁ = analyze_documents_prompt i₂ d₂ f₂ := by
  rw [hi, hd, hf]

/-- C3 (witness): determinism at a concrete input. -/
theorem c3_prompt_deterministic_witness :
    ("T" : String) = "T" ∧
    analyze_documents_prompt "T" [("a.txt", "X")] true =
      analyze_documents_prompt "T" [("a.txt", "X")] true :=
  ⟨rfl, c3_prompt_deterministic "T" "T" [("a.txt", "X")] [("a.txt", "X")] true true
    rfl rfl rfl⟩

/-- C5: the cost estimate is `P/1_000_000 × 0.3 + C/1_000_000 × 2.5`;
the example usage of one million prompt and one million completion
tokens yields 2.8 within tolerance 1e-9 (in fact exactly); absent usage
produces no estimate at all. -/
theorem c5_cost_estimation :
    (∀ P C T : Nat, display_cost_stats (some ⟨P, C, T⟩) =
        some ((P : ℚ) / 1000000 * (3 / 10) + (C : ℚ) / 1000000 * (5 / 2))) ∧
    display_cost_stats none = none ∧
    (∃ q : ℚ, display_cost_stats (some ⟨1000000, 1000000, 2000000⟩) = some q ∧
        |q - 28 / 10| ≤ 1 / 1000000000) := by
  refine ⟨fun P C T => rfl, rfl, ⟨28 / 10, ?_, by norm_num⟩⟩
  show some ((1000000 : ℚ) / 1000000 * (3 / 10) +
    (1000000 : ℚ) / 1000000 * (5 / 2)) = some (28 / 10)
  norm_num

/-- C9 (counterexample): the claim says the extracted text equals the
page texts joined with a newline between pages, but the code appends a
newline after every page: a one-page PDF with text "hello" extracts to
"hello\n", not "hello". -/
theorem c9_counterexample :
    read_pdf_content ["hello"] = "hello\n" ∧
    pdf_text_spec ["hello"] = "hello" ∧
    read_pdf_content ["hello"] ≠ pdf_text_spec ["hello"] := by
  decide

/-- C9 (amended): the extracted text is the page texts in page order,
each followed by a newline — equivalently, for a non-empty page list it
is the pages joined with a newline between pages plus one trailing
newline — and a page yielding no extractable text contributes an empty
string rather than an error (extraction is total; the middle empty page
below contributes only its terminating newline). -/
theorem c9_amended_pdf_concat :
    (∀ pages : List String,
      read_pdf_content pages = String.join (pages.map (fun p => p ++ "\n"))) ∧
    (∀ pages : List String, pages ≠ [] →
      read_pdf_content pages = pdf_text_spec pages ++ "\n") ∧
    read_pdf_content ["A", "", "B"] = "A\n\nB\n" := by
  refine ⟨?_, ?_, by decide⟩
  · intro pages
    induction pages with
    | nil => rfl
    | cons p ps ih =>
      rw [read_pdf_cons, ih, List.map_cons]
      apply String.ext
      simp [String.data_join, String.data_append, List.append_assoc]
  · intro pages
    induction pages with
    | nil => intro hne; exact absurd rfl hne
    | cons p ps ih =>
      intro _
      cases ps with
      | nil =>
        rw [read_pdf_cons, show read_pdf_content [] = "" from rfl,
          String.append_empty, show pdf_text_spec [p] = p from rfl]
      | cons q qs =>
        rw [read_pdf_cons, ih (List.cons_ne_nil q qs),
          show pdf_text_spec (p :: q :: qs) = p ++ "\n" ++ pdf_text_spec (q :: qs) from rfl]
        simp [String.append_assoc]

/-- C9 (witness): the amended equality at a concrete non-empty page
list. -/
theorem c9_amended_pdf_concat_witness :
    (["A"] : List String) ≠ [] ∧
    read_pdf_content ["A"] = pdf_text_spec ["A"] ++ "\n" :=
  ⟨by decide, c9_amended_pdf_concat.2.1 ["A"] (by decide)⟩

/-- C4: on the checklist path the result text is searched
case-insensitively for a "Company name:" line; the remainder of the line
is stripped of surrounding whitespace and brackets, sanitized to
alphanumerics/spaces/hyphens/underscores, trimmed, and spaces become
underscores, so a result containing "Company name: Acme, Inc.
[Confidential]" derives "Acme_Inc_Confidential"; with no matching line
the default "Company" is used; the filename is "checklist_" + name +
".txt".  The last conjunct: every character of a sanitized name is an
alphanumeric, a hyphen or an underscore. -/
theorem c4_filename_derivation :
    safe_company_name (extract_company_name
        "Checklist results\nCompany name: Acme, Inc. [Confidential]\nRevenue: high") =
      "Acme_Inc_Confidential" ∧
    checklist_filename
        "Checklist results\nCompany name: Acme, Inc. [Confidential]\nRevenue: high" =
      "checklist_Acme_Inc_Confidential.txt" ∧
    extract_company_name "No labeled line here." = "Company" ∧
    checklist_filename "No labeled line here." = "checklist_Company.txt" ∧
    (∀ (r : String) (c : Char), c ∈ (safe_company_name r).data →
      (c.isAlphanum || c == '-' || c == '_') = true) := by
  refine ⟨by decide, by decide, by decide, by decide, ?_⟩
  intro r c hc
  have hc2 : c ∈ (pyStrip isSpaceChar (r.data.filter
      (fun ch => ch.isAlphanum || ch == ' ' || ch == '-' || ch == '_'))).map
      (fun ch => if ch = ' ' then '_' else ch) := hc
  rcases List.mem_map.mp hc2 with ⟨b, hb, rfl⟩
  have hb2 := pyStrip_subset _ _ b hb
  have hkeep := (List.mem_filter.mp hb2).2
  by_cases hsp : b = ' '
  · subst hsp; decide
  · rw [if_neg hsp]
    have hnsp : (b == ' ') = false := beq_eq_false_iff_ne.mpr hsp
    simp only [hnsp, Bool.or_false, Bool.false_or] at hkeep
    exact hkeep

/-- C4 (witness): the character-class conjunct at a concrete name. -/
theorem c4_filename_derivation_witness :
    'A' ∈ (safe_company_name "Acme").data ∧
    ('A'.isAlphanum || 'A' == '-' || 'A' == '_') = true :=
  ⟨by decide, c4_filename_derivation.2.2.2.2 "Acme" 'A' (by decide)⟩

/-- A dictionary assignment only produces the assigned pair or pairs
already present. -/
theorem dictInsert_mem (m : List (String × String)) (k v : String) :
    ∀ p ∈ dictInsert m k v, p = (k, v) ∨ p ∈ m := by
  intro p hp
  unfold dictInsert at hp
  by_cases h : m.any (fun q => q.1 == k) = true
  · rw [if_pos h] at hp
    rcases List.mem_map.mp hp with ⟨q, hq, rfl⟩
    by_cases h2 : q.1 = k
    · rw [if_pos h2]; exact Or.inl rfl
    · rw [if_neg h2]; exact Or.inr hq
  · rw [if_neg h] at hp
    rcases List.mem_append.mp hp with h2 | h2
    · exact Or.inr h2
    · exact Or.inl (List.mem_singleton.mp h2)

/-- A dictionary assignment keeps the key list or appends the new key. -/
theorem dictInsert_map_fst (m : List (String × String)) (k v : String) :
    (dictInsert m k v).map Prod.fst = m.map Prod.fst ∨
      (dictInsert m k v).map Prod.fst = m.map Prod.fst ++ [k] := by
  unfold dictInsert
  by_cases h : m.any (fun q => q.1 == k) = true
  · rw [if_pos h]
    left
    rw [List.map_map]
    apply List.map_congr_left
    intro q _
    simp only [Function.comp_apply]
    by_cases h2 : q.1 = k
    · rw [if_pos h2]; exact h2.symm
    · rw [if_neg h2]
  · rw [if_neg h]
    right
    rw [List.map_append]
    rfl

/-- Values inserted by the batch loop are never empty (given the
accumulator already satisfies this). -/
theorem docs_contents_loop_values (fs : List UploadedFile) :
    ∀ (m : List (String × String)) (w : List String),
      (∀ p ∈ m, p.2 ≠ "") →
      ∀ p ∈ (docs_contents_loop m w fs).1, p.2 ≠ "" := by
  induction fs with
  | nil =>
    intro m w hm p hp
    exact hm p hp
  | cons f fs ih =>
    intro m w hm p hp
    cases h : extract_outcome f.data with
    | ok t =>
      by_cases ht : t ≠ ""
      · rw [show docs_contents_loop m w (f :: fs) =
            docs_contents_loop (dictInsert m f.name t) (w ++ []) fs from by
          simp only [docs_contents_loop, read_file_content, h, if_pos ht]] at hp
        refine ih _ _ ?_ p hp
        intro q hq
        rcases dictInsert_mem m f.name t q hq with rfl | hqm
        · exact ht
        · exact hm q hqm
      · rw [show docs_contents_loop m w (f :: fs) =
            docs_contents_loop m (w ++ []) fs from by
          simp only [docs_contents_loop, read_file_content, h, if_neg ht]] at hp
        exact ih _ _ hm p hp
    | error e =>
      rw [show docs_contents_loop m w (f :: fs) =
          docs_contents_loop m (w ++ ["Error reading " ++ f.name ++ ": " ++ e]) fs from by
        simp only [docs_contents_loop, read_file_content, h]] at hp
      exact ih _ _ hm p hp

/-- The key list produced by the batch loop is a sublist of the
accumulator keys followed by the file names, in order. -/
theorem docs_contents_loop_keys (fs : List UploadedFile) :
    ∀ (m : List (String × String)) (w : List String),
      List.Sublist ((docs_contents_loop m w fs).1.map Prod.fst)
        (m.map Prod.fst ++ fs.map UploadedFile.name) := by
  induction fs with
  | nil =>
    intro m w
    rw [List.map_nil, List.append_nil]
    exact List.Sublist.refl _
  | cons f fs ih =>
    intro m w
    have hstep : List.Sublist (m.map Prod.fst ++ fs.map UploadedFile.name)
        (m.map Prod.fst ++ (f :: fs).map UploadedFile.name) := by
      rw [List.map_cons]
      exact List.Sublist.append_left (List.sublist_cons_self _ _) _
    cases h : extract_outcome f.data with
    | ok t =>
      by_cases ht : t ≠ ""
      · rw [show docs_contents_loop m w (f :: fs) =
            docs_contents_loop (dictInsert m f.name t) (w ++ []) fs from by
          simp only [docs_contents_loop, read_file_content, h, if_pos ht]]
        rcases dictInsert_map_fst m f.name t with heq | heq
        · have hih := ih (dictInsert m f.name t) (w ++ [])
          rw [heq] at hih
          exact hih.trans hstep
        · have hih := ih (dictInsert m f.name t) (w ++ [])
          rw [heq, List.append_assoc, List.singleton_append] at hih
          rw [List.map_cons]
          exact hih
      · rw [show docs_contents_loop m w (f :: fs) =
            docs_contents_loop m (w ++ []) fs from by
          simp only [docs_contents_loop, read_file_content, h, if_neg ht]]
        exact (ih m (w ++ [])).trans hstep
    | error e =>
      rw [show docs_contents_loop m w (f :: fs) =
          docs_contents_loop m (w ++ ["Error reading " ++ f.name ++ ": " ++ e]) fs from by
        simp only [docs_contents_loop, read_file_content, h]]
      exact (ih m _).trans hstep

/-- The warnings collected by the batch loop are the per-file warnings
in file order, appended to the accumulator. -/
theorem docs_contents_loop_warns (fs : List UploadedFile) :
    ∀ (m : List (String × String)) (w : List String),
      (docs_contents_loop m w fs).2 =
        w ++ (fs.map (fun f => (read_file_content f).2)).flatten := by
  induction fs with
  | nil =>
    intro m w
    rw [List.map_nil, show ([] : List (List String)).flatten = [] from rfl,
      List.append_nil]
    rfl
  | cons f fs ih =>
    intro m w
    cases h : extract_outcome f.data with
    | ok t =>
      have hrf : (read_file_content f).2 = [] := by
        simp only [read_file_content, h]
      by_cases ht : t ≠ ""
      · rw [show docs_contents_loop m w (f :: fs) =
            docs_contents_loop (dictInsert m f.name t) (w ++ []) fs from by
          simp only [docs_contents_loop, read_file_content, h, if_pos ht]]
        rw [ih, List.map_cons, hrf]
        simp [List.append_assoc]
      · rw [show docs_contents_loop m w (f :: fs) =
            docs_contents_loop m (w ++ []) fs from by
          simp only [docs_contents_loop, read_file_content, h, if_neg ht]]
        rw [ih, List.map_cons, hrf]
        simp [List.append_assoc]
    | error e =>
      have hrf : (read_file_content f).2 =
          ["Error reading " ++ f.name ++ ": " ++ e] := by
        simp only [read_file_content, h]
      rw [show docs_contents_loop m w (f :: fs) =
          docs_contents_loop m (w ++ ["Error reading " ++ f.name ++ ": " ++ e]) fs from by
        simp only [docs_contents_loop, read_file_content, h]]
      rw [ih, List.map_cons, hrf]
      simp [List.append_assoc]

/-- C6: after batch extraction every key in the mapping maps to
non-empty text; the surviving keys are, in their original order, a
selection of the uploaded file names (failed or empty documents are
dropped); every extraction failure is signaled to the caller with an
error banner; and the concrete three-document batch with an unreadable
middle document yields exactly the other two in original order plus one
recorded warning. -/
theorem c6_extracted_mapping_invariant :
    (∀ files : List UploadedFile, ∀ p ∈ (docs_contents files).1, p.2 ≠ "") ∧
    (∀ files : List UploadedFile,
      List.Sublist ((docs_contents files).1.map Prod.fst)
        (files.map UploadedFile.name)) ∧
    (∀ files : List UploadedFile, ∀ f ∈ files, ∀ e,
      extract_outcome f.data = Except.error e →
        ("Error reading " ++ f.name ++ ": " ++ e) ∈ (docs_contents files).2) ∧
    docs_contents c6SampleDocs =
      ([("d1.txt", "A"), ("d3.txt", "B")], ["Error reading d2.bin: bad file"]) := by
  refine ⟨?_, ?_, ?_, by decide⟩
  · intro files p hp
    refine docs_contents_loop_values files [] [] ?_ p hp
    intro q hq
    exact absurd hq (List.not_mem_nil q)
  · intro files
    have h := docs_contents_loop_keys files [] []
    rw [List.map_nil, List.nil_append] at h
    exact h
  · intro files f hf e he
    have h := docs_contents_loop_warns files [] []
    rw [List.nil_append] at h
    show _ ∈ (docs_contents_loop [] [] files).2
    rw [h]
    refine List.mem_flatten.mpr ⟨(read_file_content f).2, List.mem_map_of_mem _ hf, ?_⟩
    rw [show (read_file_content f).2 = ["Error reading " ++ f.name ++ ": " ++ e] from by
      simp only [read_file_content, he]]
    exact List.mem_singleton.mpr rfl

/-- C6 (witness): the non-empty-value invariant at a concrete entry of
the sample batch. -/
theorem c6_extracted_mapping_invariant_witness :
    ("d1.txt", "A") ∈ (docs_contents c6SampleDocs).1 ∧
    (("d1.txt", "A") : String × String).2 ≠ "" :=
  ⟨by decide, c6_extracted_mapping_invariant.1 c6SampleDocs ("d1.txt", "A") (by decide)⟩

/-- If some document in the list fails to read, the console reading loop
never returns a combined content string. -/
theorem console_docs_content_ne_ok
    (readF : String → Except String String) (p e : String) :
    ∀ (ps : List String) (idx : Nat), p ∈ ps → readF p = Except.error e →
      ∀ s, console_docs_content readF idx ps ≠ Except.ok s := by
  intro ps
  induction ps with
  | nil => intro idx hp; exact absurd hp (List.not_mem_nil p)
  | cons q qs ih =>
    intro idx hp hre s hok
    rcases List.mem_cons.mp hp with rfl | hp2
    · rw [show console_docs_content readF idx (p :: qs) = Except.error (p, e) from by
        simp only [console_docs_content, hre]] at hok
      exact Except.noConfusion hok
    · cases hq : readF q with
      | error e2 =>
        rw [show console_docs_content readF idx (q :: qs) = Except.error (q, e2) from by
          simp only [console_docs_content, hq]] at hok
        exact Except.noConfusion hok
      | ok t =>
        cases h2 : console_docs_content readF (idx + 1) qs with
        | error pe =>
          rw [show console_docs_content readF idx (q :: qs) = Except.error pe from by
            simp only [console_docs_content, hq, h2]] at hok
          exact Except.noConfusion hok
        | ok rest => exact ih (idx + 1) hp2 hre rest h2

/-- If every document in the list reads successfully, the console
reading loop returns a combined content string. -/
theorem console_docs_content_ok
    (readF : String → Except String String) :
    ∀ (ps : List String) (idx : Nat),
      (∀ p ∈ ps, ∃ t, readF p = Except.ok t) →
      ∃ s, console_docs_content readF idx ps = Except.ok s := by
  intro ps
  induction ps with
  | nil => intro idx _; exact ⟨"", rfl⟩
  | cons q qs ih =>
    intro idx h
    rcases h q (List.mem_cons_self q qs) with ⟨t, ht⟩
    rcases ih (idx + 1) (fun p hp => h p (List.mem_cons_of_mem q hp)) with ⟨rest, hrest⟩
    refine ⟨"\n--- Document " ++ toString (idx + 1) ++ " (" ++ q ++ ") ---\n" ++
      t ++ "\n" ++ rest, ?_⟩
    simp only [console_docs_content, ht, hrest]

/-- Once past the template-existence check, the printed warnings of the
console run are exactly the missing-document warnings. -/
theorem console_run_snd (ex : String → Bool) (readF : String → Except String String)
    (tp : String) (dps : List String) (op : String) (htp : ex tp = true) :
    (console_run ex readF tp dps op).2 = console_warnings ex dps := by
  unfold console_run
  rw [if_pos htp]
  by_cases h1 : dps.filter (fun p => ex p) = []
  · rw [if_pos h1]
  · rw [if_neg h1]
    by_cases h2 : op = ""
    · rw [if_pos h2]
    · rw [if_neg h2]
      cases h3 : readF tp with
      | error e => simp only [h3]
      | ok t =>
        simp only [h3]
        cases h4 : console_docs_content readF 0 (dps.filter (fun p => ex p)) with
        | error pe => simp only [h4]
        | ok s => simp only [h4]

/-- C7 (counterexample): the claim says every per-document failure is
non-fatal to the batch, but a failure while reading a validated document
aborts the entire console run: with both documents present and the
second failing to decode, the run ends in `docReadError` even though the
valid set has two documents — the first, readable document does not
proceed. -/
theorem c7_counterexample :
    console_run (fun _ => true)
        (fun p => if p = "b.txt" then Except.error "invalid start byte"
          else Except.ok "alpha")
        "t.txt" ["a.txt", "b.txt"] "out.txt" =
      (RunOutcome.docReadError "b.txt" "invalid start byte", []) ∧
    (["a.txt", "b.txt"].filter (fun p => (fun (_ : String) => true) p)).length = 2 := by
  decide

/-- C7 (amended): in the batch read of the console variant, a missing
document (`FileNotFound`) is non-fatal: it is skipped with a warning
while the remaining documents proceed, and when skipping leaves the
valid set empty the run aborts with `EmptyInput`; but a failure while
reading a validated document (e.g. a decode failure or unsupported
content surfacing at read time) aborts the entire run rather than
skipping the offending document; the run proceeds to the service call
exactly when the valid set is non-empty and the template and every valid
document read successfully. -/
theorem c7_amended_batch_failures
    (ex : String → Bool) (readF : String → Except String String)
    (tp : String) (dps : List String) (op : String)
    (htp : ex tp = true) (hop : op ≠ "") :
    (dps.filter (fun p => ex p) = [] →
      (console_run ex readF tp dps op).1 = RunOutcome.emptyInput) ∧
    (∀ p ∈ dps, ex p = false →
      ("Warning: Document \u0027" ++ p ++ "\u0027 not found. Skipping.") ∈
        (console_run ex readF tp dps op).2) ∧
    (∀ p e, p ∈ dps.filter (fun q => ex q) → readF p = Except.error e →
      ∀ pr, (console_run ex readF tp dps op).1 ≠ RunOutcome.serviceResult pr) ∧
    (∀ t, readF tp = Except.ok t →
      (∀ p ∈ dps.filter (fun q => ex q), ∃ s, readF p = Except.ok s) →
      dps.filter (fun q => ex q) ≠ [] →
      ∃ pr, (console_run ex readF tp dps op).1 = RunOutcome.serviceResult pr) := by
  refine ⟨?_, ?_, ?_, ?_⟩
  · intro hempty
    unfold console_run
    rw [if_pos htp, if_pos hempty]
  · intro p hp hexp
    rw [console_run_snd ex readF tp dps op htp]
    unfold console_warnings
    refine List.mem_map_of_mem _ (List.mem_filter.mpr ⟨hp, ?_⟩)
    rw [hexp]
    rfl
  · intro p e hp hre pr hcontra
    have hne : dps.filter (fun q => ex q) ≠ [] := List.ne_nil_of_mem hp
    unfold console_run at hcontra
    rw [if_pos htp, if_neg hne, if_neg hop] at hcontra
    cases h2 : readF tp with
    | error e2 => simp [h2] at hcontra
    | ok t =>
      cases h3 : console_docs_content readF 0 (dps.filter (fun q => ex q)) with
      | error pe => simp [h2, h3] at hcontra
      | ok s => exact console_docs_content_ne_ok readF p e _ 0 hp hre s h3
  · intro t hT hall hne
    rcases console_docs_content_ok readF (dps.filter (fun q => ex q)) 0 hall with ⟨s, hs⟩
    refine ⟨console_prompt t s, ?_⟩
    unfold console_run
    rw [if_pos htp, if_neg hne, if_neg hop]
    simp only [hT, hs]

/-- C7 (witness): a concrete run with one existing, readable document
reaches the service call. -/
theorem c7_amended_batch_failures_witness :
    ((fun (_ : String) => true) "t.txt" = true) ∧
    ("out.txt" : String) ≠ "" ∧
    (∃ pr, (console_run (fun _ => true) (fun _ => Except.ok "alpha") "t.txt"
        ["a.txt"] "out.txt").1 = RunOutcome.serviceResult pr) :=
  ⟨rfl, by decide,
    (c7_amended_batch_failures (fun _ => true) (fun _ => Except.ok "alpha")
        "t.txt" ["a.txt"] "out.txt" rfl (by decide)).2.2.2 "alpha" rfl
      (fun p _ => ⟨"alpha", rfl⟩) (by decide)⟩

/-- C8: the resolved API key is the explicit user override when a
non-empty one is given, otherwise the process-wide secrets/environment
value when a non-empty one exists, otherwise absent; and an absent key
is a hard precondition failure — the analyze flow makes no analysis
call. -/
theorem c8_credential_resolution (user : String) (secrets env : Option String) :
    (user ≠ "" → resolved_api_key user (system_api_key secrets env) = some user) ∧
    (∀ s, user = "" → system_api_key secrets env = some s → s ≠ "" →
      resolved_api_key user (system_api_key secrets env) = some s) ∧
    (user = "" →
      (system_api_key secrets env = none ∨ system_api_key secrets env = some "") →
      resolved_api_key user (system_api_key secrets env) = none) ∧
    (∀ t c d, analysis_attempted none t c d = false) := by
  refine ⟨?_, ?_, ?_, fun t c d => rfl⟩
  · intro hu
    unfold resolved_api_key
    rw [if_pos hu]
  · intro s hu hs hsne
    unfold resolved_api_key
    rw [if_neg (fun h => h hu)]
    simp only [hs]
    rw [if_pos hsne]
  · intro hu hsys
    unfold resolved_api_key
    rw [if_neg (fun h => h hu)]
    rcases hsys with h | h <;> simp [h]

/-- C8 (witness): a non-empty user override wins at a concrete input. -/
theorem c8_credential_resolution_witness :
    ("userkey" : String) ≠ "" ∧
    resolved_api_key "userkey" (system_api_key none (some "envkey")) = some "userkey" :=
  ⟨by decide, (c8_credential_resolution "userkey" none (some "envkey")).1 (by decide)⟩

/-- C10: an empty-string user override is treated as no override: the
resolved key falls back to the non-empty system value, or is absent when
the system source is missing; the resolved key is never the empty
string; and only a non-empty override takes precedence. -/
theorem c10_empty_override_fallback (s : String) (sys : Option String) :
    (s ≠ "" → resolved_api_key "" (some s) = some s) ∧
    resolved_api_key "" none = none ∧
    resolved_api_key "" sys ≠ some "" ∧
    (s ≠ "" → resolved_api_key s sys = some s) := by
  refine ⟨?_, by decide, ?_, ?_⟩
  · intro h
    unfold resolved_api_key
    rw [if_neg (fun hc => hc rfl)]
    simp only []
    rw [if_pos h]
  · cases sys with
    | none => simp [resolved_api_key]
    | some v =>
      by_cases hv : v = ""
      · simp [resolved_api_key, hv]
      · simp [resolved_api_key, hv]
  · intro h
    unfold resolved_api_key
    rw [if_pos h]

/-- C10 (witness): empty override falls back to the system value at a
concrete input. -/
theorem c10_empty_override_fallback_witness :
    ("envkey" : String) ≠ "" ∧
    resolved_api_key "" (some "envkey") = some "envkey" :=
  ⟨by decide, (c10_empty_override_fallback "envkey" (some "envkey")).1 (by decide)⟩
